import Mathlib

/-!
Shallow embedding of `src/github-filler.py` (GitHubContributionsFiller).

The program walks one calendar day at a time from a start date to an end
date ("now" at invocation), randomly decides whether each day is active,
draws a per-day commit count from an intensity tier, picks a random time
of day for each commit, and asks git (via subprocess) to create a commit
back-dated to that time, after appending a log line to `data.txt`.

Modelling conventions:
* `DateTime` mirrors Python `datetime`: a day number (days since
  1970-01-01, which was a Thursday) plus hour/minute/second/microsecond
  fields.  Comparison of datetimes is comparison of `toMicros`.
* Randomness is an explicit stream of natural-number draws (`Rng`).
  CPython's `random.random()` returns `getrandbits(53) / 2 ** 53`, which
  `pyRandom` reproduces over `ℚ`; `random.randint a b` is modelled as
  `a + r % (b + 1 - a)` (some value of the inclusive range `[a, b]`
  determined by the draw), and `random.choice` indexes the list with the
  draw modulo its length.
* The outcomes of the external git commands and of filesystem writes are
  oracle inputs (`GitEnv`, `SetupEnv`): each call may succeed or fail.
* `data.txt` is modelled by the sequence of lines appended to it; each
  appended line carries the commit timestamp and the random 4-digit tag.
-/

/-- Python `datetime`: `day` counts days since 1970-01-01 (a Thursday). -/
structure DateTime where
  day : Nat
  hour : Nat
  minute : Nat
  second : Nat
  microsecond : Nat
  deriving DecidableEq, Repr

/-- Total microsecond count of a datetime; datetime comparison in the
source (`<`, `<=` on `datetime` values) is comparison of this number. -/
def DateTime.toMicros (d : DateTime) : Nat :=
  (((d.day * 24 + d.hour) * 60 + d.minute) * 60 + d.second) * 1000000 + d.microsecond

/-- Python `date + timedelta(days = n)`. -/
def DateTime.addDays (d : DateTime) (n : Nat) : DateTime :=
  { d with day := d.day + n }

/-- Python `date.replace(hour = h, minute = m, second = s)`: the day and
the microsecond field are preserved (the source never clears
microseconds, line 268 of `src/github-filler.py`). -/
def DateTime.replaceTime (d : DateTime) (h m s : Nat) : DateTime :=
  { d with hour := h, minute := m, second := s }

/-- Python `date.weekday()`: Monday = 0 .. Sunday = 6.  Day 0 of our
epoch (1970-01-01) was a Thursday, hence the offset 3. -/
def DateTime.weekday (d : DateTime) : Nat :=
  (d.day + 3) % 7

/-- Python `(a - b).days` of a `timedelta`: floor division of the signed
microsecond difference by the microseconds of one day. -/
def timedeltaDays (a b : DateTime) : Int :=
  Int.fdiv ((a.toMicros : Int) - (b.toMicros : Int)) 86400000000

/-- Stream of random draws; an exhausted stream keeps yielding 0. -/
abbrev Rng := List Nat

/-- Pop the next draw. -/
def Rng.next : Rng → Nat × Rng
  | [] => (0, [])
  | x :: xs => (x, xs)

/-- CPython `random.random()`: a 53-bit value divided by `2 ** 53`. -/
def pyRandom (r : Nat) : ℚ :=
  ((r % 2 ^ 53 : Nat) : ℚ) / 2 ^ 53

/-- The comparison `random.random() < num / den` on a draw `r`, computed
over naturals so that concrete runs evaluate; `pyRandomLt_iff` below
proves it agrees with the comparison of `pyRandom r` against the exact
rational threshold.  (The source compares against the float literals
0.7, 0.4, 0.85, 0.5; the thresholds are modelled as exact rationals.) -/
def pyRandomLt (r num den : Nat) : Bool :=
  decide (r % 2 ^ 53 * den < num * 2 ^ 53)

theorem pyRandomLt_iff (r num den : Nat) (h : 0 < den) :
    pyRandomLt r num den = decide (pyRandom r < (num : ℚ) / den) := by
  have h2 : (0 : ℚ) < 2 ^ 53 := by positivity
  have hd : (0 : ℚ) < (den : ℚ) := by exact_mod_cast h
  simp only [pyRandomLt, pyRandom, decide_eq_decide]
  rw [div_lt_div_iff₀ h2 hd]
  exact_mod_cast Iff.rfl

/-- Python `random.randint a b` (inclusive range): some value of
`[a, b]` determined by the draw. -/
def randint (a b r : Nat) : Nat :=
  a + r % (b + 1 - a)

/-- Python `random.choice l`: an element of `l` determined by the draw
(the default is never used, the source only calls it on literal
non-empty lists). -/
def pyChoice {α : Type} (l : List α) (dflt : α) (r : Nat) : α :=
  l.getD (r % l.length) dflt

/-- One line appended to `data.txt` by `create_commit`: the commit
timestamp and the random 4-digit tag (source line 170). -/
abbrev DataEntry := DateTime × Nat

/-- Outcome oracle for one `create_commit` call: does appending to
`data.txt` succeed, does `git add` succeed, does `git commit` succeed. -/
structure GitEnv where
  writeOk : Bool
  addOk : Bool
  commitOk : Bool
  deriving DecidableEq, Repr

/-- Stream of per-call git outcomes; an exhausted stream means every
external call succeeds. -/
abbrev GitOracle := List GitEnv

/-- Pop the next per-call outcome. -/
def GitOracle.next : GitOracle → GitEnv × GitOracle
  | [] => (⟨true, true, true⟩, [])
  | x :: xs => (x, xs)

/-- The canned commit messages of `create_commit` (source lines 152-163). -/
def messages : List String :=
  ["Actualización automática",
   "Progreso diario",
   "Mejoras menores",
   "Actualización de datos",
   "Commit automático",
   "Mantenimiento del código",
   "Actualización de documentación",
   "Refactoring menor",
   "Optimización de código",
   "Corrección de bugs menores"]

/-- `GitHubContributionsFiller.create_commit` (source lines 149-188),
called without an explicit message: choose a random canned message, then
append a line `timestamp - random.randint(1000, 9999)` to `data.txt`,
then run `git add .` and `git commit` with the author and committer
dates overridden.  Returns whether the commit succeeded, the new
`data.txt` contents, and the remaining draw stream.  If the append
raises `IOError` the function returns `False` without touching git; if a
git command fails the function returns `False`, with the appended line
left in place. -/
def create_commit (e : GitEnv) (data : List DataEntry) (date : DateTime) (g : Rng) :
    Bool × List DataEntry × Rng :=
  let m := g.next
  let _msg := pyChoice messages "Actualización automática" m.1
  if !e.writeOk then (false, data, m.2)
  else
    let t := m.2.next
    let data1 := data ++ [(date, randint 1000 9999 t.1)]
    if e.addOk && e.commitOk then (true, data1, t.2) else (false, data1, t.2)

/-- `GitHubContributionsFiller.should_commit_today` (source lines
190-204): future days are never active; Sundays are skipped with
probability 0.4; surviving weekdays are active with probability 0.85,
weekend days with probability 0.5. -/
def should_commit_today (now date : DateTime) (g : Rng) : Bool × Rng :=
  if now.toMicros < date.toMicros then (false, g)
  else
    let step : Rng → Bool × Rng := fun g2 =>
      let a := g2.next
      if date.weekday < 5 then (pyRandomLt a.1 85 100, a.2)
      else (pyRandomLt a.1 1 2, a.2)
    if date.weekday == 6 then
      let a := g.next
      if pyRandomLt a.1 2 5 then (false, a.2) else step a.2
    else step g

/-- The hours offered outside business hours:
`list(range(7, 9)) + list(range(19, 23))` (source line 263). -/
def offHours : List Nat :=
  List.range' 7 2 ++ List.range' 19 4

/-- The random time-of-day pick of one commit (source lines 259-266):
with probability 0.7 a business hour uniform in `[9, 18]`, otherwise a
choice from `offHours`; minute and second uniform in `[0, 59]`. -/
structure TimePick where
  business : Bool
  hour : Nat
  minute : Nat
  second : Nat
  deriving DecidableEq, Repr

/-- Draw one `TimePick` from the stream, mirroring source lines 259-266. -/
def pickTime (g : Rng) : TimePick × Rng :=
  let a := g.next
  if pyRandomLt a.1 7 10 then
    let b := a.2.next
    let c := b.2.next
    let d := c.2.next
    (⟨true, randint 9 18 b.1, randint 0 59 c.1, randint 0 59 d.1⟩, d.2)
  else
    let b := a.2.next
    let c := b.2.next
    let d := c.2.next
    (⟨false, pyChoice offHours 0 b.1, randint 0 59 c.1, randint 0 59 d.1⟩, d.2)

/-- Record of one iteration of the per-day commit loop (source lines
258-284): the drawn time, whether the timestamp was in the future (in
which case the iteration `continue`d without calling `create_commit`
and without touching `total_commits`), and whether `create_commit`
returned `True`. -/
structure CommitAttempt where
  business : Bool
  hour : Nat
  minute : Nat
  second : Nat
  time : DateTime
  future : Bool
  success : Bool
  deriving DecidableEq, Repr

/-- The mutable state threaded through `generate_commits`: the draw
stream, the git outcome oracle, the `data.txt` contents, and the
`total_commits` / `successful_commits` counters. -/
structure LoopState where
  g : Rng
  ext : GitOracle
  data : List DataEntry
  total : Nat
  successful : Nat
  deriving DecidableEq, Repr

/-- The inner `for i in range(daily_commits)` loop of `generate_commits`
(source lines 258-284).  For each of the `n` iterations: pick a time,
build `commit_time` from the current day, `continue` if it is in the
future (no counter change), otherwise call `create_commit`, bump
`successful_commits` on success and `total_commits` unconditionally. -/
def processCommits (now current : DateTime) : Nat → LoopState → List CommitAttempt × LoopState
  | 0, ls => ([], ls)
  | n + 1, ls =>
    let pk := pickTime ls.g
    let p := pk.1
    let t := current.replaceTime p.hour p.minute p.second
    if now.toMicros < t.toMicros then
      let r := processCommits now current n { ls with g := pk.2 }
      (⟨p.business, p.hour, p.minute, p.second, t, true, false⟩ :: r.1, r.2)
    else
      let e := ls.ext.next
      let c := create_commit e.1 ls.data t pk.2
      let r := processCommits now current n
        ⟨c.2.2, e.2, c.2.1, ls.total + 1, if c.1 then ls.successful + 1 else ls.successful⟩
      (⟨p.business, p.hour, p.minute, p.second, t, false, c.1⟩ :: r.1, r.2)

/-- Record of one calendar day processed by the outer loop: whether the
day was active, the drawn `daily_commits` (0 when inactive; the draw
only happens on active days), and the per-commit attempts. -/
structure DayRecord where
  date : DateTime
  active : Bool
  daily : Nat
  attempts : List CommitAttempt
  deriving DecidableEq, Repr

/-- The outer `while current_date <= self.end_date` loop of
`generate_commits` (source lines 253-286), with an explicit iteration
budget `fuel`.  `generate_commits` passes `endDate.day + 1 -
startDate.day`, which is exactly the number of iterations the while
loop performs (the guard compares full timestamps and the walk advances
one whole day at a time). -/
def dayLoop (now endDate : DateTime) (minC maxC : Nat) :
    Nat → DateTime → LoopState → List DayRecord × LoopState
  | 0, _, ls => ([], ls)
  | fuel + 1, current, ls =>
    if current.toMicros ≤ endDate.toMicros then
      let sc := should_commit_today now current ls.g
      if sc.1 then
        let a := sc.2.next
        let daily := randint minC maxC a.1
        let pc := processCommits now current daily { ls with g := a.2 }
        let rest := dayLoop now endDate minC maxC fuel (current.addDays 1) pc.2
        (⟨current, true, daily, pc.1⟩ :: rest.1, rest.2)
      else
        let rest := dayLoop now endDate minC maxC fuel (current.addDays 1) { ls with g := sc.2 }
        (⟨current, false, 0, []⟩ :: rest.1, rest.2)
    else ([], ls)

/-- The four intensity levels accepted by the CLI
(`choices` of `--intensity`, source line 409). -/
inductive Intensity
  | low
  | medium
  | high
  | very_high
  deriving DecidableEq, Repr

/-- `intensity_map` (source lines 232-237): the inclusive per-day commit
count range of each tier. -/
def intensity_map : Intensity → Nat × Nat
  | .low => (1, 2)
  | .medium => (1, 4)
  | .high => (2, 6)
  | .very_high => (3, 10)

/-- `GitHubContributionsFiller.validate_dates` (source lines 206-224):
reject `start >= end` and `start > now`; for ranges above 400 days the
run continues only if the user confirms (`bigConfirm`). -/
def validate_dates (now startDate endDate : DateTime) (bigConfirm : Bool) : Bool :=
  if endDate.toMicros ≤ startDate.toMicros then false
  else if now.toMicros < startDate.toMicros then false
  else if 400 < timedeltaDays endDate startDate then bigConfirm
  else true

/-- Result of `generate_commits`: the day-by-day trace, the final
counters, the final `data.txt` contents, and `ret`, the value the
Python function actually returns (source line 296:
`return successful_commits > 0`; `False` when validation fails). -/
structure GenResult where
  days : List DayRecord
  total : Nat
  successful : Nat
  data : List DataEntry
  ret : Bool
  deriving DecidableEq, Repr

/-- `GitHubContributionsFiller.generate_commits` (source lines 226-296).
`now` stands for `datetime.now()` (taken as constant for the run),
`endDate` for `self.end_date`.  Invalid intensity strings cannot occur:
the CLI restricts `--intensity` to the four tier names. -/
def generate_commits (now startDate endDate : DateTime) (intensity : Intensity)
    (bigConfirm : Bool) (g : Rng) (ext : GitOracle) (data0 : List DataEntry) : GenResult :=
  if validate_dates now startDate endDate bigConfirm then
    let mm := intensity_map intensity
    let fuel := endDate.day + 1 - startDate.day
    let r := dayLoop now endDate mm.1 mm.2 fuel startDate ⟨g, ext, data0, 0, 0⟩
    ⟨r.1, r.2.total, r.2.successful, r.2.data, decide (0 < r.2.successful)⟩
  else ⟨[], 0, 0, data0, false⟩

/-- Filesystem / git mutations issued by the setup phase. -/
inductive Effect
  | mkdirRepo
  | gitInit
  | configName (v : String)
  | configEmail (v : String)
  | writeReadme
  | writeDataFile
  deriving DecidableEq, Repr

/-- State of the target directory as the program observes it: whether
`.git` exists, the resolved `git config user.name` / `user.email`
(`none` when the command reports the key unset), whether `README.md`
and `data.txt` exist, and the `data.txt` contents. -/
structure RepoState where
  gitDir : Bool
  userName : Option String
  userEmail : Option String
  readme : Bool
  dataFile : Bool
  data : List DataEntry
  deriving DecidableEq, Repr

/-- The source treats a key as configured when `git config` exits 0 and
prints a non-empty (stripped) value (source lines 57-58). -/
def configuredStr : Option String → Bool
  | none => false
  | some s => !(s == "")

/-- Environment oracle for the setup phase: is git on the PATH, is the
repo path the current directory, and do the individual external calls
(`mkdir`, the git identity configuration including its interactive
prompts, the two seed file writes) succeed. -/
structure SetupEnv where
  gitInstalled : Bool
  isCwd : Bool
  mkdirOk : Bool
  configOk : Bool
  readmeWriteOk : Bool
  dataWriteOk : Bool
  authorName : Option String
  authorEmail : Option String
  deriving DecidableEq, Repr

/-- `GitHubContributionsFiller._setup_git_config` (source lines 50-81):
if both identity keys are already configured, report success without
touching anything; otherwise set the missing keys locally (the prompted
value defaults to the fixed fallback strings; any exception while
reading, prompting or writing makes the function return `False`). -/
def setup_git_config (env : SetupEnv) (st : RepoState) :
    Bool × RepoState × List Effect :=
  if configuredStr st.userName && configuredStr st.userEmail then
    (true, st, [])
  else if !env.configOk then (false, st, [])
  else
    let s1 :=
      if !configuredStr st.userName then
        let name := env.authorName.getD "GitHub Contributions Bot"
        ({ st with userName := some name }, [Effect.configName name])
      else (st, [])
    let s2 :=
      if !configuredStr s1.1.userEmail then
        let email := env.authorEmail.getD "contributions@example.com"
        ({ s1.1 with userEmail := some email }, s1.2 ++ [Effect.configEmail email])
      else s1
    (true, s2.1, s2.2)

/-- `GitHubContributionsFiller._create_initial_files` (source lines
125-147): create `README.md` and `data.txt` only when absent; an
`IOError` on either write exits with code 1. -/
def create_initial_files (env : SetupEnv) (st : RepoState) :
    Except Nat (RepoState × List Effect) :=
  if !st.readme && !env.readmeWriteOk then .error 1
  else
    let s1 :=
      if st.readme then (st, ([] : List Effect))
      else ({ st with readme := true }, [Effect.writeReadme])
    if !s1.1.dataFile && !env.dataWriteOk then .error 1
    else
      let s2 :=
        if s1.1.dataFile then s1
        else ({ s1.1 with dataFile := true }, s1.2 ++ [Effect.writeDataFile])
      .ok s2

/-- The body of `setup_repository` after the prerequisite checks
(source lines 97-123): `git init` when `.git` is absent, configure the
identity (exit 1 when that fails, source lines 118-120), then create
the seed files (whose `sys.exit(1)` propagates, modelled by
`Except.map`). -/
def setup_repository_tail (env : SetupEnv) (st : RepoState) (mkEffs : List Effect) :
    Except Nat (RepoState × List Effect) :=
  let s1 :=
    if st.gitDir then (st, ([] : List Effect))
    else ({ st with gitDir := true }, [Effect.gitInit])
  let cfg := setup_git_config env s1.1
  if !cfg.1 then .error 1
  else
    (create_initial_files env cfg.2.1).map
      (fun s2 => (s2.1, mkEffs ++ s1.2 ++ cfg.2.2 ++ s2.2))

/-- `GitHubContributionsFiller.setup_repository` (source lines 83-123):
check git is installed (exit 1 if not), create the directory when the
path is not the current directory (exit 1 on `PermissionError` of the
`mkdir`), then perform the body steps.  `.error 1` models
`sys.exit(1)`. -/
def setup_repository (env : SetupEnv) (st : RepoState) :
    Except Nat (RepoState × List Effect) :=
  if !env.gitInstalled then .error 1
  else if !env.isCwd && !env.mkdirOk then .error 1
  else setup_repository_tail env st (if env.isCwd then [] else [Effect.mkdirRepo])

/-- Inputs of one invocation of `main` (source lines 392-510):
the parsed CLI values, `datetime.now()` (taken as constant for the
run), the interactive confirmations, the setup oracle, whether the try
block is hit by `KeyboardInterrupt` or by an `Exception` that reaches
the top-level handler, the random stream, the git outcome oracle, and
the initial directory state.  `startDate = none` models a
`--start-date` value `parse_date` rejects. -/
structure MainEnv where
  startDate : Option DateTime
  now : DateTime
  dryRun : Bool
  confirmRun : Bool
  intensity : Intensity
  bigConfirm : Bool
  setup : SetupEnv
  interrupted : Bool
  unhandledExc : Bool
  g : Rng
  ext : GitOracle
  repo : RepoState
  deriving DecidableEq, Repr

/-- Observable outcome of `main`: the process exit code, the setup-phase
effects, the day count printed by the dry-run branch (source line 443),
and the final directory state. -/
structure MainResult where
  exitCode : Nat
  effects : List Effect
  reportedDays : Option Int
  repo : RepoState
  deriving DecidableEq, Repr

/-- `main` (source lines 392-510).  `parse_date` failure exits 1.  The
dry-run branch prints `(datetime.now() - start_date).days` and returns
before creating the filler, so it performs no mutation.  Declining the
confirmation returns (exit 0).  `KeyboardInterrupt` is caught at the
top level and only restores the working directory (exit 0); an
`Exception` reaching the top-level handler exits 1.  Otherwise
`setup_repository` runs (its `sys.exit(1)` propagates), then
`generate_commits` with `end_date = now`; the remote / push steps never
call `sys.exit`, so every remaining path exits 0. -/
def mainRun (env : MainEnv) : MainResult :=
  match env.startDate with
  | none => ⟨1, [], none, env.repo⟩
  | some start =>
    if env.dryRun then
      ⟨0, [], some (timedeltaDays env.now start), env.repo⟩
    else if !env.confirmRun then ⟨0, [], none, env.repo⟩
    else if env.interrupted then ⟨0, [], none, env.repo⟩
    else if env.unhandledExc then ⟨1, [], none, env.repo⟩
    else
      match setup_repository env.setup env.repo with
      | .error c => ⟨c, [], none, env.repo⟩
      | .ok s =>
        let r := generate_commits env.now start env.now env.intensity env.bigConfirm
          env.g env.ext s.1.data
        ⟨0, s.2, none, { s.1 with data := r.data }⟩

/-! ### Helper lemmas about the randomness primitives -/

theorem randint_bounds (a b r : Nat) (h : a ≤ b) :
    a ≤ randint a b r ∧ randint a b r ≤ b := by
  unfold randint
  have h1 : 0 < b + 1 - a := by omega
  have h2 : r % (b + 1 - a) < b + 1 - a := Nat.mod_lt _ h1
  omega

theorem pyChoice_offHours_mem (r : Nat) : pyChoice offHours 0 r ∈ offHours := by
  have h : r % offHours.length < 6 := Nat.mod_lt _ (by decide)
  have h6 : r % offHours.length = 0 ∨ r % offHours.length = 1 ∨
      r % offHours.length = 2 ∨ r % offHours.length = 3 ∨
      r % offHours.length = 4 ∨ r % offHours.length = 5 := by omega
  rcases h6 with h' | h' | h' | h' | h' | h' <;> simp [pyChoice, h'] <;> decide

/-! ### Trace invariants of the commit loop -/

/-- Shape invariant of every attempt record the per-day loop produces:
the timestamp is the current day with the drawn time of day, the hour
respects the drawn branch, minute and second are at most 59, and the
`future` flag is exactly the "timestamp after now" test of source line
275. -/
def AttemptOk (now current : DateTime) (a : CommitAttempt) : Prop :=
  a.time = current.replaceTime a.hour a.minute a.second ∧
  (a.business = true → 9 ≤ a.hour ∧ a.hour ≤ 18) ∧
  (a.business = false → a.hour ∈ offHours) ∧
  a.minute ≤ 59 ∧ a.second ≤ 59 ∧
  a.future = decide (now.toMicros < a.time.toMicros)

theorem pickTime_ok (g : Rng) :
    ((pickTime g).1.business = true → 9 ≤ (pickTime g).1.hour ∧ (pickTime g).1.hour ≤ 18) ∧
    ((pickTime g).1.business = false → (pickTime g).1.hour ∈ offHours) ∧
    (pickTime g).1.minute ≤ 59 ∧ (pickTime g).1.second ≤ 59 := by
  unfold pickTime
  dsimp only
  split
  · refine ⟨fun _ => randint_bounds 9 18 _ (by omega), fun hc => ?_, ?_, ?_⟩
    · simp at hc
    · exact (randint_bounds 0 59 _ (by omega)).2
    · exact (randint_bounds 0 59 _ (by omega)).2
  · refine ⟨fun hc => ?_, fun _ => pyChoice_offHours_mem _, ?_, ?_⟩
    · simp at hc
    · exact (randint_bounds 0 59 _ (by omega)).2
    · exact (randint_bounds 0 59 _ (by omega)).2

theorem processCommits_attempts (now current : DateTime) :
    ∀ (n : Nat) (ls : LoopState) (a : CommitAttempt),
      a ∈ (processCommits now current n ls).1 → AttemptOk now current a := by
  intro n
  induction n with
  | zero =>
    intro ls a ha
    simp [processCommits] at ha
  | succ n ih =>
    intro ls a ha
    rw [processCommits] at ha
    simp only at ha
    split at ha
    · next hfut =>
      rcases List.mem_cons.mp ha with h | h
      · subst h
        refine ⟨rfl, (pickTime_ok ls.g).1, (pickTime_ok ls.g).2.1,
          (pickTime_ok ls.g).2.2.1, (pickTime_ok ls.g).2.2.2, ?_⟩
        simp only [decide_eq_true hfut]
      · exact ih _ a h
    · next hfut =>
      rcases List.mem_cons.mp ha with h | h
      · subst h
        refine ⟨rfl, (pickTime_ok ls.g).1, (pickTime_ok ls.g).2.1,
          (pickTime_ok ls.g).2.2.1, (pickTime_ok ls.g).2.2.2, ?_⟩
        simp [hfut]
      · exact ih _ a h

theorem dayLoop_attempts (now endD : DateTime) (mn mx : Nat) :
    ∀ (fuel : Nat) (cur : DateTime) (ls : LoopState) (d : DayRecord) (a : CommitAttempt),
      d ∈ (dayLoop now endD mn mx fuel cur ls).1 → a ∈ d.attempts →
      AttemptOk now d.date a := by
  intro fuel
  induction fuel with
  | zero =>
    intro cur ls d a hd _
    simp [dayLoop] at hd
  | succ fuel ih =>
    intro cur ls d a hd ha
    rw [dayLoop] at hd
    simp only at hd
    split at hd
    · split at hd
      · rcases List.mem_cons.mp hd with h | h
        · subst h
          exact processCommits_attempts now cur _ _ a ha
        · exact ih _ _ d a h ha
      · rcases List.mem_cons.mp hd with h | h
        · subst h
          simp at ha
        · exact ih _ _ d a h ha
    · simp at hd

theorem processCommits_total_eq (now current : DateTime) :
    ∀ (n : Nat) (ls : LoopState),
      (processCommits now current n ls).2.total =
        ls.total + ((processCommits now current n ls).1.filter
          (fun a => a.future == false)).length := by
  intro n
  induction n with
  | zero =>
    intro ls
    simp [processCommits]
  | succ n ih =>
    intro ls
    rw [processCommits]
    dsimp only
    split
    · rw [ih]
      simp
    · rw [ih]
      simp
      omega

theorem dayLoop_total_eq (now endD : DateTime) (mn mx : Nat) :
    ∀ (fuel : Nat) (cur : DateTime) (ls : LoopState),
      (dayLoop now endD mn mx fuel cur ls).2.total =
        ls.total + ((dayLoop now endD mn mx fuel cur ls).1.map
          (fun d => (d.attempts.filter (fun a => a.future == false)).length)).sum := by
  intro fuel
  induction fuel with
  | zero =>
    intro cur ls
    simp [dayLoop]
  | succ fuel ih =>
    intro cur ls
    rw [dayLoop]
    dsimp only
    split
    · split
      · simp only [List.map_cons, List.sum_cons]
        rw [ih]
        rw [processCommits_total_eq]
        dsimp only
        omega
      · simp only [List.map_cons, List.sum_cons]
        rw [ih]
        simp
    · simp

theorem processCommits_total_le (now current : DateTime) :
    ∀ (n : Nat) (ls : LoopState),
      (processCommits now current n ls).2.total ≤ ls.total + n := by
  intro n
  induction n with
  | zero =>
    intro ls
    simp [processCommits]
  | succ n ih =>
    intro ls
    rw [processCommits]
    dsimp only
    split
    · refine le_trans (ih _) ?_
      dsimp only
      omega
    · refine le_trans (ih _) ?_
      dsimp only
      omega

theorem dayLoop_total_le (now endD : DateTime) (mn mx : Nat) (h : mn ≤ mx) :
    ∀ (fuel : Nat) (cur : DateTime) (ls : LoopState),
      (dayLoop now endD mn mx fuel cur ls).2.total ≤ ls.total + fuel * mx := by
  intro fuel
  induction fuel with
  | zero =>
    intro cur ls
    simp [dayLoop]
  | succ fuel ih =>
    intro cur ls
    rw [dayLoop]
    dsimp only
    split
    · split
      · refine le_trans (ih _ _) ?_
        have h1 := processCommits_total_le now cur
          (randint mn mx ((should_commit_today now cur ls.g).2.next.1))
          { ls with g := (should_commit_today now cur ls.g).2.next.2 }
        have h2 := (randint_bounds mn mx ((should_commit_today now cur ls.g).2.next.1) h).2
        dsimp only at h1
        have h3 : (fuel + 1) * mx = fuel * mx + mx := by ring
        omega
      · refine le_trans (ih _ _) ?_
        dsimp only
        have h3 : (fuel + 1) * mx = fuel * mx + mx := by ring
        omega
    · dsimp only
      omega

theorem dayLoop_daily_bounds (now endD : DateTime) (mn mx : Nat) (h : mn ≤ mx) :
    ∀ (fuel : Nat) (cur : DateTime) (ls : LoopState) (d : DayRecord),
      d ∈ (dayLoop now endD mn mx fuel cur ls).1 → d.active = true →
      mn ≤ d.daily ∧ d.daily ≤ mx := by
  intro fuel
  induction fuel with
  | zero =>
    intro cur ls d hd _
    simp [dayLoop] at hd
  | succ fuel ih =>
    intro cur ls d hd hact
    rw [dayLoop] at hd
    dsimp only at hd
    split at hd
    · split at hd
      · rcases List.mem_cons.mp hd with h' | h'
        · subst h'
          exact randint_bounds mn mx _ h
        · exact ih _ _ d h' hact
      · rcases List.mem_cons.mp hd with h' | h'
        · subst h'
          simp at hact
        · exact ih _ _ d h' hact
    · simp at hd

/-! ### Claim theorems -/

/-- Claim C1: for every date range and intensity, whenever
`create_commit` is invoked by `generate_commits` (an attempt whose
`future` flag is false, so the `continue` of source line 276 did not
fire), the timestamp it is given is at most the current time at the
moment of the check.  Stated over `dayLoop`, the while loop of
`generate_commits`, for every iteration budget, day and state. -/
theorem dayLoop_commit_timestamps_le_now (now endD : DateTime) (mn mx fuel : Nat)
    (cur : DateTime) (ls : LoopState) (d : DayRecord) (a : CommitAttempt)
    (hd : d ∈ (dayLoop now endD mn mx fuel cur ls).1) (ha : a ∈ d.attempts)
    (hf : a.future = false) :
    a.time.toMicros ≤ now.toMicros := by
  have h := (dayLoop_attempts now endD mn mx fuel cur ls d a hd ha).2.2.2.2.2
  rw [hf] at h
  have h2 : ¬ now.toMicros < a.time.toMicros := of_decide_eq_false h.symm
  omega

/-- Witness for C1: in a concrete run one commit of day 700 at 09:00:00
is handed to `create_commit`, and its timestamp is at most now. -/
theorem dayLoop_commit_timestamps_le_now_witness :
    DateTime.toMicros ⟨700, 9, 0, 0, 0⟩ ≤ DateTime.toMicros ⟨701, 0, 0, 0, 0⟩ :=
  dayLoop_commit_timestamps_le_now ⟨701, 0, 0, 0, 0⟩ ⟨700, 1, 0, 0, 0⟩ 1 2 1
    ⟨700, 0, 0, 0, 0⟩ ⟨[], [], [], 0, 0⟩
    ⟨⟨700, 0, 0, 0, 0⟩, true, 1, [⟨true, 9, 0, 0, ⟨700, 9, 0, 0, 0⟩, false, true⟩]⟩
    ⟨true, 9, 0, 0, ⟨700, 9, 0, 0, 0⟩, false, true⟩
    (by decide) (by decide) rfl

/-- Claim C2, counterexample: in a concrete run (now 08:30 on day 700,
one active day, one drawn commit at 09:00) the commit's timestamp is in
the future, `create_commit` is skipped, and `total_commits` stays 0:
the `continue` of source line 276 jumps over `total_commits += 1`
(line 281), so a skipped commit is NOT counted as attempted, contrary
to the claim. -/
theorem generate_future_commit_not_counted_cex :
    (generate_commits ⟨700, 8, 30, 0, 0⟩ ⟨700, 0, 0, 0, 0⟩ ⟨700, 1, 0, 0, 0⟩ .low true
        [] [] []).total = 0 ∧
    ((generate_commits ⟨700, 8, 30, 0, 0⟩ ⟨700, 0, 0, 0, 0⟩ ⟨700, 1, 0, 0, 0⟩ .low true
        [] [] []).days.map
      (fun d => (d.attempts.filter (fun a => a.future)).length)).sum = 1 := by
  decide

/-- Claim C2 as amended: a per-day commit whose drawn timestamp falls in
the future is skipped and NOT counted: `total_commits` counts exactly
the commits for which `create_commit` was invoked (the attempts with
`future = false`). -/
theorem dayLoop_total_counts_only_nonfuture (now endD : DateTime) (mn mx fuel : Nat)
    (cur : DateTime) (ls : LoopState) :
    (dayLoop now endD mn mx fuel cur ls).2.total =
      ls.total + ((dayLoop now endD mn mx fuel cur ls).1.map
        (fun d => (d.attempts.filter (fun a => a.future == false)).length)).sum :=
  dayLoop_total_eq now endD mn mx fuel cur ls

/-- Claim C3, counterexample: two runs of `generate_commits` with
different (attempted, succeeded) counts — (1, 1) and (2, 2) — return
the same value, so the return value is not the pair of counts (the
source returns `successful_commits > 0`, line 296). -/
theorem generate_commits_return_not_pair_cex :
    (generate_commits ⟨701, 0, 0, 0, 0⟩ ⟨700, 0, 0, 0, 0⟩ ⟨700, 1, 0, 0, 0⟩ .low true
        [] [] []).ret =
      (generate_commits ⟨701, 0, 0, 0, 0⟩ ⟨700, 0, 0, 0, 0⟩ ⟨700, 1, 0, 0, 0⟩ .low true
        [0, 1] [] []).ret ∧
    ¬ ((generate_commits ⟨701, 0, 0, 0, 0⟩ ⟨700, 0, 0, 0, 0⟩ ⟨700, 1, 0, 0, 0⟩ .low true
          [] [] []).total =
        (generate_commits ⟨701, 0, 0, 0, 0⟩ ⟨700, 0, 0, 0, 0⟩ ⟨700, 1, 0, 0, 0⟩ .low true
          [0, 1] [] []).total ∧
       (generate_commits ⟨701, 0, 0, 0, 0⟩ ⟨700, 0, 0, 0, 0⟩ ⟨700, 1, 0, 0, 0⟩ .low true
          [] [] []).successful =
        (generate_commits ⟨701, 0, 0, 0, 0⟩ ⟨700, 0, 0, 0, 0⟩ ⟨700, 1, 0, 0, 0⟩ .low true
          [0, 1] [] []).successful) := by
  decide

/-- Claim C3 as amended: `generate_commits` computes the attempted and
succeeded counts internally (and prints them) but returns only a
boolean: `True` exactly when at least one commit succeeded (`False`
also when date validation fails). -/
theorem generate_commits_ret_iff_successful_pos (now s e : DateTime) (i : Intensity)
    (bc : Bool) (g : Rng) (ext : GitOracle) (d0 : List DataEntry) :
    (generate_commits now s e i bc g ext d0).ret =
      decide (0 < (generate_commits now s e i bc g ext d0).successful) := by
  unfold generate_commits
  split <;> simp

/-- Claim C4, counterexample: with start 700d 22:00:00, end exactly one
day later and intensity low, a run late in the day (now 701d 23:00:00)
processes both the start day and the end day, each active with 2 drawn
commits, all in the past: 4 commits are attempted, contradicting the
claimed bound of 2. -/
theorem generate_low_adjacent_days_cex :
    ¬ ((generate_commits ⟨701, 23, 0, 0, 0⟩ ⟨700, 22, 0, 0, 0⟩
        (DateTime.addDays ⟨700, 22, 0, 0, 0⟩ 1) .low true
        [0, 1, 0, 0, 0, 0, 0, 0, 0, 0, 0, 0, 0, 0, 0, 1] [] []).total ≤ 2) := by
  decide

/-- Claim C4 as amended: with start equal to end minus exactly one day
and intensity low, the while loop processes the two days start and
start + 1 (both satisfy `current_date <= end_date`), each attempting at
most `max_commits = 2` commits, so at most 4 commits are attempted
regardless of the random draws. -/
theorem generate_low_adjacent_days_total_le_four (now start : DateTime) (bc : Bool)
    (g : Rng) (ext : GitOracle) (d0 : List DataEntry) :
    (generate_commits now start (start.addDays 1) .low bc g ext d0).total ≤ 4 := by
  unfold generate_commits
  split
  · dsimp only
    have hfuel : (start.addDays 1).day + 1 - start.day = 2 := by
      simp only [DateTime.addDays]
      omega
    rw [hfuel]
    have h := dayLoop_total_le now (start.addDays 1) (intensity_map .low).1
      (intensity_map .low).2 (by decide) 2 start ⟨g, ext, d0, 0, 0⟩
    dsimp only at h
    exact le_trans h (by simp [intensity_map])
  · simp

/-- Claim C5: on every active day the drawn commit count lies within the
selected intensity tier's inclusive bounds, the four tiers mapping to
low = (1, 2), medium = (1, 4), high = (2, 6), very_high = (3, 10).
Stated over `dayLoop`, the while loop of `generate_commits`, for every
iteration budget and state. -/
theorem dayLoop_daily_within_intensity_bounds (i : Intensity) (now endD : DateTime)
    (fuel : Nat) (cur : DateTime) (ls : LoopState) (d : DayRecord)
    (hd : d ∈ (dayLoop now endD (intensity_map i).1 (intensity_map i).2 fuel cur ls).1)
    (hact : d.active = true) :
    ((intensity_map i).1 ≤ d.daily ∧ d.daily ≤ (intensity_map i).2) ∧
    intensity_map .low = (1, 2) ∧ intensity_map .medium = (1, 4) ∧
    intensity_map .high = (2, 6) ∧ intensity_map .very_high = (3, 10) := by
  have hmm : (intensity_map i).1 ≤ (intensity_map i).2 := by cases i <;> decide
  exact ⟨dayLoop_daily_bounds now endD _ _ hmm fuel cur ls d hd hact,
    rfl, rfl, rfl, rfl⟩

/-- Witness for C5: in a concrete low-intensity run an active day draws
1 commit, within the tier bounds (1, 2). -/
theorem dayLoop_daily_within_intensity_bounds_witness :
    ((1 : Nat) ≤ 1 ∧ (1 : Nat) ≤ 2) ∧
    intensity_map .low = (1, 2) ∧ intensity_map .medium = (1, 4) ∧
    intensity_map .high = (2, 6) ∧ intensity_map .very_high = (3, 10) :=
  dayLoop_daily_within_intensity_bounds .low ⟨700, 8, 30, 0, 0⟩ ⟨700, 1, 0, 0, 0⟩ 1
    ⟨700, 0, 0, 0, 0⟩ ⟨[], [], [], 0, 0⟩
    ⟨⟨700, 0, 0, 0, 0⟩, true, 1, [⟨true, 9, 0, 0, ⟨700, 9, 0, 0, 0⟩, true, false⟩]⟩
    (by decide) rfl

/-- Claim C6: every drawn commit time has its hour in [9, 18] on the
business-hours branch and in the set 7, 8, 19, 20, 21, 22 otherwise;
minute and second are in [0, 59]; hence every hour lies in [7, 22] and
the timestamp stays on the scheduled calendar day.  Stated over
`dayLoop`, the while loop of `generate_commits`. -/
theorem dayLoop_commit_time_fields_in_range (now endD : DateTime) (mn mx fuel : Nat)
    (cur : DateTime) (ls : LoopState) (d : DayRecord) (a : CommitAttempt)
    (hd : d ∈ (dayLoop now endD mn mx fuel cur ls).1) (ha : a ∈ d.attempts) :
    (a.business = true → 9 ≤ a.hour ∧ a.hour ≤ 18) ∧
    (a.business = false → a.hour ∈ [7, 8, 19, 20, 21, 22]) ∧
    a.minute ≤ 59 ∧ a.second ≤ 59 ∧
    7 ≤ a.hour ∧ a.hour ≤ 22 ∧
    a.time.day = d.date.day := by
  obtain ⟨ht, hb, ho, hm, hs, _⟩ := dayLoop_attempts now endD mn mx fuel cur ls d a hd ha
  have ho' : a.business = false → a.hour ∈ [7, 8, 19, 20, 21, 22] := by
    intro h
    have := ho h
    simpa [offHours, List.range'] using this
  have hrange : 7 ≤ a.hour ∧ a.hour ≤ 22 := by
    cases hbv : a.business
    · have := ho' hbv
      simp at this
      omega
    · have := hb hbv
      omega
  refine ⟨hb, ho', hm, hs, hrange.1, hrange.2, ?_⟩
  rw [ht]
  rfl

/-- Witness for C6: a concrete business-hours commit at 09:00:00 on day
700 satisfies all the stated bounds and stays on day 700. -/
theorem dayLoop_commit_time_fields_in_range_witness :
    ((true : Bool) = true → (9 : Nat) ≤ 9 ∧ (9 : Nat) ≤ 18) ∧
    ((true : Bool) = false → (9 : Nat) ∈ [7, 8, 19, 20, 21, 22]) ∧
    (0 : Nat) ≤ 59 ∧ (0 : Nat) ≤ 59 ∧
    (7 : Nat) ≤ 9 ∧ (9 : Nat) ≤ 22 ∧
    (700 : Nat) = 700 :=
  dayLoop_commit_time_fields_in_range ⟨700, 9, 30, 0, 0⟩ ⟨700, 1, 0, 0, 0⟩ 1 2 1
    ⟨700, 0, 0, 0, 0⟩ ⟨[], [], [], 0, 0⟩
    ⟨⟨700, 0, 0, 0, 0⟩, true, 1, [⟨true, 9, 0, 0, ⟨700, 9, 0, 0, 0⟩, false, true⟩]⟩
    ⟨true, 9, 0, 0, ⟨700, 9, 0, 0, 0⟩, false, true⟩
    (by decide) (by decide)

/-- Claim C10: `create_commit` is not atomic on error: the log line
(timestamp plus a random 4-digit tag) is appended to `data.txt` before
git is invoked, so when the git commit fails the function returns
`False` with the appended line still in place — the mutation is not
rolled back. -/
theorem create_commit_append_persists_on_git_failure (e : GitEnv)
    (data : List DataEntry) (date : DateTime) (g : Rng)
    (hw : e.writeOk = true) (hc : e.commitOk = false) :
    (create_commit e data date g).1 = false ∧
    ∃ tag, 1000 ≤ tag ∧ tag ≤ 9999 ∧
      (create_commit e data date g).2.1 = data ++ [(date, tag)] := by
  have h1 : create_commit e data date g =
      (false, data ++ [(date, randint 1000 9999 (g.next.2.next.1))], g.next.2.next.2) := by
    unfold create_commit
    rw [hw, hc]
    simp
  rw [h1]
  exact ⟨rfl, randint 1000 9999 (g.next.2.next.1),
    (randint_bounds 1000 9999 _ (by omega)).1,
    (randint_bounds 1000 9999 _ (by omega)).2, rfl⟩

/-! ### Characterization of the setup phase, used for the exit-code and
idempotence claims -/

theorem setup_git_config_fst (env : SetupEnv) (st : RepoState) :
    (setup_git_config env st).1 =
      (configuredStr st.userName && configuredStr st.userEmail || env.configOk) := by
  cases hn : configuredStr st.userName <;>
    cases he : configuredStr st.userEmail <;>
      cases hc : env.configOk <;>
        simp [setup_git_config, hn, he, hc]

theorem setup_git_config_preserves (env : SetupEnv) (st : RepoState) :
    (setup_git_config env st).2.1.gitDir = st.gitDir ∧
    (setup_git_config env st).2.1.readme = st.readme ∧
    (setup_git_config env st).2.1.dataFile = st.dataFile ∧
    (setup_git_config env st).2.1.data = st.data := by
  cases hn : configuredStr st.userName <;>
    cases he : configuredStr st.userEmail <;>
      cases hc : env.configOk <;>
        simp [setup_git_config, hn, he, hc]

theorem create_initial_files_isOk (env : SetupEnv) (st : RepoState) :
    (create_initial_files env st).isOk =
      !((!st.readme && !env.readmeWriteOk) || (!st.dataFile && !env.dataWriteOk)) := by
  cases hr : st.readme <;> cases hd : st.dataFile <;>
    cases hro : env.readmeWriteOk <;> cases hdo : env.dataWriteOk <;>
      simp [create_initial_files, hr, hd, hro, hdo, Except.isOk, Except.toBool]

theorem create_initial_files_error_val (env : SetupEnv) (st : RepoState)
    (h : (create_initial_files env st).isOk = false) :
    create_initial_files env st = .error 1 := by
  revert h
  cases hr : st.readme <;> cases hd : st.dataFile <;>
    cases hro : env.readmeWriteOk <;> cases hdo : env.dataWriteOk <;>
      simp [create_initial_files, hr, hd, hro, hdo, Except.isOk, Except.toBool]

/-- The boolean condition under which the setup phase calls
`sys.exit(1)`: git missing, directory creation failing, git identity
configuration failing (needed and erroring), or a seed file write
failing (needed and erroring). -/
def setupFails (env : SetupEnv) (st : RepoState) : Bool :=
  !env.gitInstalled
    || (!env.isCwd && !env.mkdirOk)
    || ((!configuredStr st.userName || !configuredStr st.userEmail) && !env.configOk)
    || (!st.readme && !env.readmeWriteOk)
    || (!st.dataFile && !env.dataWriteOk)

theorem exceptIsOk_map {α β ε : Type} (f : α → β) (x : Except ε α) :
    (x.map f).isOk = x.isOk := by
  cases x <;> rfl

theorem setup_tail_core_isOk (env : SetupEnv) (st1 : RepoState)
    (f : RepoState × List Effect → RepoState × List Effect) :
    (if !(setup_git_config env st1).1 then
        (Except.error 1 : Except Nat (RepoState × List Effect))
      else (create_initial_files env (setup_git_config env st1).2.1).map f).isOk =
      ((configuredStr st1.userName && configuredStr st1.userEmail || env.configOk)
        && !(!st1.readme && !env.readmeWriteOk)
        && !(!st1.dataFile && !env.dataWriteOk)) := by
  cases hcfg : (setup_git_config env st1).1
  · have hfst := setup_git_config_fst env st1
    rw [hcfg] at hfst
    rw [← hfst]
    simp [Except.isOk, Except.toBool]
  · have hfst := setup_git_config_fst env st1
    rw [hcfg] at hfst
    rw [← hfst]
    have hpre := setup_git_config_preserves env st1
    simp only [Bool.not_true, Bool.false_eq_true, if_false, Bool.true_and]
    rw [exceptIsOk_map, create_initial_files_isOk, hpre.2.1, hpre.2.2.1]
    simp

theorem setup_repository_tail_isOk (env : SetupEnv) (st : RepoState) (mkEffs : List Effect) :
    (setup_repository_tail env st mkEffs).isOk =
      ((configuredStr st.userName && configuredStr st.userEmail || env.configOk)
        && !(!st.readme && !env.readmeWriteOk)
        && !(!st.dataFile && !env.dataWriteOk)) := by
  unfold setup_repository_tail
  dsimp only
  cases hgd : st.gitDir
  · rw [if_neg (by decide : ¬ (false = true))]
    rw [setup_tail_core_isOk]
  · rw [if_pos rfl]
    rw [setup_tail_core_isOk]

theorem setup_repository_isOk (env : SetupEnv) (st : RepoState) :
    (setup_repository env st).isOk = !setupFails env st := by
  unfold setup_repository setupFails
  cases hgi : env.gitInstalled
  · simp [Except.isOk, Except.toBool]
  · simp only [Bool.not_true, Bool.false_eq_true, if_false, Bool.false_or]
    cases hdir : (!env.isCwd && !env.mkdirOk)
    · simp only [Bool.false_eq_true, if_false, Bool.false_or]
      rw [setup_repository_tail_isOk]
      cases hn : configuredStr st.userName <;> cases he : configuredStr st.userEmail <;>
        cases hc : env.configOk <;> cases hr : st.readme <;> cases hro : env.readmeWriteOk <;>
          cases hd : st.dataFile <;> cases hdo : env.dataWriteOk <;> rfl
    · simp [Except.isOk, Except.toBool]

theorem setup_tail_core_error_val (env : SetupEnv) (st1 : RepoState)
    (f : RepoState × List Effect → RepoState × List Effect)
    (h : (if !(setup_git_config env st1).1 then
        (Except.error 1 : Except Nat (RepoState × List Effect))
      else (create_initial_files env (setup_git_config env st1).2.1).map f).isOk = false) :
    (if !(setup_git_config env st1).1 then
        (Except.error 1 : Except Nat (RepoState × List Effect))
      else (create_initial_files env (setup_git_config env st1).2.1).map f) = .error 1 := by
  cases hcfg : (setup_git_config env st1).1
  · rfl
  · rw [hcfg] at h
    simp only [Bool.not_true, Bool.false_eq_true, if_false] at h
    rw [exceptIsOk_map] at h
    rw [create_initial_files_error_val env _ h]
    rfl

theorem setup_repository_tail_error_val (env : SetupEnv) (st : RepoState)
    (mkEffs : List Effect) (h : (setup_repository_tail env st mkEffs).isOk = false) :
    setup_repository_tail env st mkEffs = .error 1 := by
  revert h
  unfold setup_repository_tail
  dsimp only
  cases hgd : st.gitDir
  · rw [if_neg (by decide : ¬ (false = true))]
    exact setup_tail_core_error_val env _ _
  · rw [if_pos rfl]
    exact setup_tail_core_error_val env _ _

theorem setup_repository_error_val (env : SetupEnv) (st : RepoState)
    (h : (setup_repository env st).isOk = false) :
    setup_repository env st = .error 1 := by
  revert h
  unfold setup_repository
  split
  · intro _
    rfl
  · split
    · intro _
      rfl
    · intro h
      exact setup_repository_tail_error_val env st _ h

/-- Witness for C10: with a concrete failing git commit, the call
returns false and `data.txt` has gained the line for the requested
timestamp with a 4-digit tag. -/
theorem create_commit_append_persists_on_git_failure_witness :
    (create_commit ⟨true, true, false⟩ [] ⟨0, 0, 0, 0, 0⟩ []).1 = false ∧
    ∃ tag, 1000 ≤ tag ∧ tag ≤ 9999 ∧
      (create_commit ⟨true, true, false⟩ [] ⟨0, 0, 0, 0, 0⟩ []).2.1 =
        [] ++ [(⟨0, 0, 0, 0, 0⟩, tag)] :=
  create_commit_append_persists_on_git_failure ⟨true, true, false⟩ [] ⟨0, 0, 0, 0, 0⟩ []
    rfl rfl

/-- Claim C7: with the dry-run flag, `main` performs no filesystem or
version-control mutation (no effects, directory state unchanged) and
reports a day count equal to `(now - start).days`, Python floor
division of the difference by one day (source lines 440-444). -/
theorem mainRun_dry_run_no_mutation (env : MainEnv) (d : DateTime)
    (hdry : env.dryRun = true) (hs : env.startDate = some d) :
    (mainRun env).exitCode = 0 ∧ (mainRun env).effects = [] ∧
    (mainRun env).repo = env.repo ∧
    (mainRun env).reportedDays =
      some (Int.fdiv ((env.now.toMicros : Int) - (d.toMicros : Int)) 86400000000) := by
  unfold mainRun
  rw [hs]
  dsimp only
  rw [hdry]
  simp [timedeltaDays]

/-- A concrete dry-run invocation: valid start date 100 days before
now, dry-run flag set. -/
def dryRunEnv : MainEnv :=
  ⟨some ⟨800, 0, 0, 0, 0⟩, ⟨900, 1, 2, 3, 4⟩, true, false, .medium, false,
   ⟨true, true, true, true, true, true, none, none⟩, false, false, [], [],
   ⟨false, none, none, false, false, []⟩⟩

/-- Witness for C7: the concrete dry run exits 0, mutates nothing and
reports the floor day count. -/
theorem mainRun_dry_run_no_mutation_witness :
    (mainRun dryRunEnv).exitCode = 0 ∧ (mainRun dryRunEnv).effects = [] ∧
    (mainRun dryRunEnv).repo = dryRunEnv.repo ∧
    (mainRun dryRunEnv).reportedDays =
      some (Int.fdiv ((DateTime.toMicros ⟨900, 1, 2, 3, 4⟩ : Int) -
        (DateTime.toMicros ⟨800, 0, 0, 0, 0⟩ : Int)) 86400000000) :=
  mainRun_dry_run_no_mutation dryRunEnv ⟨800, 0, 0, 0, 0⟩ rfl rfl

/-- Claim C8: running `setup_repository` on a repository that is already
initialized (`.git` exists) with both identity keys configured and both
seed files present issues no git-config write and no seed-file write,
and leaves the directory state unchanged (only the `mkdir` with
`exist_ok = True` runs when the path is not the current directory). -/
theorem setup_repository_idempotent_noop (env : SetupEnv) (st : RepoState)
    (hg : st.gitDir = true) (hn : configuredStr st.userName = true)
    (he : configuredStr st.userEmail = true) (hr : st.readme = true)
    (hd : st.dataFile = true) (hgit : env.gitInstalled = true)
    (hmk : env.mkdirOk = true) :
    setup_repository env st = .ok (st, if env.isCwd then [] else [Effect.mkdirRepo]) := by
  simp [setup_repository, setup_repository_tail, setup_git_config, create_initial_files,
    hg, hn, he, hr, hd, hgit, hmk, Except.map]

/-- Witness for C8: a concrete configured repository state is returned
unchanged with no config or file-write effect. -/
theorem setup_repository_idempotent_noop_witness :
    setup_repository ⟨true, true, true, true, true, true, none, none⟩
        ⟨true, some "Dev", some "dev@example.com", true, true, []⟩ =
      .ok (⟨true, some "Dev", some "dev@example.com", true, true, []⟩,
        if (true : Bool) then [] else [Effect.mkdirRepo]) :=
  setup_repository_idempotent_noop ⟨true, true, true, true, true, true, none, none⟩
    ⟨true, some "Dev", some "dev@example.com", true, true, []⟩
    rfl (by decide) (by decide) rfl rfl rfl rfl

/-- A concrete `main` environment in which none of the claim's four
exit-1 causes holds (git installed, parsable start date, writable
directory and seed files, no unhandled exception, no interruption) but
the git identity is unset and configuring it fails. -/
def configFailEnv : MainEnv :=
  ⟨some ⟨700, 0, 0, 0, 0⟩, ⟨701, 0, 0, 0, 0⟩, false, true, .medium, true,
   ⟨true, true, true, false, true, true, none, none⟩,
   false, false, [], [], ⟨true, none, some "dev@example.com", true, true, []⟩⟩

/-- Claim C9, counterexample: `main` exits 1 although git is installed,
the start date parses, the mkdir and both seed-file writes would
succeed, and neither an unhandled exception nor an interruption occurs:
the failing git-identity configuration (`_setup_git_config` returns
`False`, source lines 118-120) is a fifth exit-1 cause outside the
claim's enumeration. -/
theorem mainRun_exit_one_outside_claimed_causes_cex :
    (mainRun configFailEnv).exitCode = 1 ∧
    configFailEnv.setup.gitInstalled = true ∧
    configFailEnv.setup.mkdirOk = true ∧
    configFailEnv.setup.readmeWriteOk = true ∧
    configFailEnv.setup.dataWriteOk = true ∧
    configFailEnv.startDate.isSome = true ∧
    configFailEnv.unhandledExc = false ∧
    configFailEnv.interrupted = false := by
  decide

/-- Claim C9 as amended: the exit code is 1 exactly on a malformed
start date or, once the run is confirmed and not interrupted, on an
unhandled exception or a failing setup step (git missing, directory
creation failing, git identity configuration failing, or a seed-file
write failing); it is 0 in every other case, including per-commit
failures, a declined confirmation, a dry run and user interruption. -/
theorem mainRun_exit_code_characterization (env : MainEnv) :
    (mainRun env).exitCode =
      if env.startDate.isNone then 1
      else if env.dryRun || !env.confirmRun || env.interrupted then 0
      else if env.unhandledExc then 1
      else if setupFails env.setup env.repo then 1
      else 0 := by
  unfold mainRun
  cases hs : env.startDate
  · simp
  · dsimp only
    cases hdry : env.dryRun
    · cases hconf : env.confirmRun
      · simp
      · cases hint : env.interrupted
        · cases hexc : env.unhandledExc
          · simp only [Bool.not_true, Bool.false_eq_true, if_false, Bool.false_or,
              Bool.or_false, Option.isNone_some]
            cases hset : setup_repository env.setup env.repo with
            | error c =>
              have h1 : (setup_repository env.setup env.repo).isOk = false := by
                rw [hset]
                rfl
              have h2 := setup_repository_error_val env.setup env.repo h1
              rw [hset] at h2
              have h3 := setup_repository_isOk env.setup env.repo
              rw [h1] at h3
              have h4 : setupFails env.setup env.repo = true := by
                cases hsf : setupFails env.setup env.repo
                · rw [hsf] at h3
                  simp at h3
                · rfl
              injection h2 with hc
              subst hc
              rw [h4]
              simp
            | ok s =>
              have h1 : (setup_repository env.setup env.repo).isOk = true := by
                rw [hset]
                rfl
              have h3 := setup_repository_isOk env.setup env.repo
              rw [h1] at h3
              have h4 : setupFails env.setup env.repo = false := by
                cases hsf : setupFails env.setup env.repo
                · rfl
                · rw [hsf] at h3
                  simp at h3
              rw [h4]
              simp
          · simp
        · simp
    · simp
